import Mathlib

/-!
Shallow embedding of `scripts/groq_mcp_demo.py`.

The script is linear demonstration code: it reads three environment
variables, fails fast when the mandatory key is missing, builds a list of
MCP tool descriptors, and runs four sequential demo routines, each of which
issues at most one chat-completion request and prints formatted output.

Modelling decisions:
* Environment variables are `Option String`; Python truthiness of a string
  (`if not GROQ_API_KEY`) is `strTruthy`, false for both `none` (unset)
  and `some ""` (set to the empty string).
* Console output is a list of `(Stream, String)` events, one per `print`
  call, with `Stream.out`/`Stream.err` for stdout/stderr.
* The chat-completion call is external; each routine takes its outcome as
  a parameter of type `Except PyError Response` (a raised exception or a
  returned response object).  `PyError.status_code = none` models an
  exception object without a `status_code` attribute.
* The `json` library is external; `demo2` takes a parameter
  `jp : String → Option String` where `jp s = none` models
  `json.loads(s)` raising `JSONDecodeError` and `jp s = some t` models
  `json.dumps(json.loads(s), indent=2) = t`.  `Message.dumpJson` models
  the string `json.dumps(message.model_dump(), indent=2, default=str)`.
-/

namespace GroqMcpDemo

/-- Which process stream a `print` call wrote to. -/
inductive Stream where
  | out
  | err
deriving Repr, DecidableEq

/-- One console output event: the stream and the printed text. -/
abbrev Line := Stream × String

/-- Shorthand for a stdout print. -/
def outL (s : String) : Line := (Stream.out, s)

/-- Shorthand for a stderr print. -/
def errOutL (s : String) : Line := (Stream.err, s)

/-- The process environment as read at lines 27-29: the three variables
the script consults. `none` = unset. -/
structure Env where
  groq_api_key : Option String
  default_groq_model : Option String
  firecrawl_api_key : Option String
deriving Repr, DecidableEq

/-- Python truthiness of an optional string: `not x` is true exactly when
the variable is unset (`None`) or set to the empty string. -/
def strTruthy : Option String → Bool
  | none => false
  | some s => s ≠ ""

/-- An MCP tool descriptor as built at lines 50-67: a `type` tag, a
`server_url`, and an optional headers mapping. -/
structure Tool where
  type : String
  server_url : String
  headers : Option (List (String × String))
deriving Repr, DecidableEq

/-- The Huggingface descriptor (lines 51-54): no headers. -/
def hfTool : Tool :=
  { type := "mcp", server_url := "https://huggingface.co/mcp", headers := none }

/-- The Firecrawl descriptor (lines 61-67): bearer-token header from the
secondary key. -/
def fcTool (key : String) : Tool :=
  { type := "mcp"
  , server_url := "https://mcp.firecrawl.dev/"
  , headers := some [("Authorization", "Bearer " ++ key)] }

/-- The tool list (lines 50-67): the Huggingface entry always, the
Firecrawl entry appended only when `FIRECRAWL_API_KEY` is truthy. -/
def buildTools (firecrawl_api_key : Option String) : List Tool :=
  if strTruthy firecrawl_api_key then
    [hfTool, fcTool (firecrawl_api_key.getD "")]
  else
    [hfTool]

/-- A run of 60 `-` characters (`"-" * 60`). -/
def dashRule : String := String.mk (List.replicate 60 '-')

/-- A run of 60 `=` characters (`"=" * 60`). -/
def eqRule : String := String.mk (List.replicate 60 '=')

/-- Module-level configuration surviving a successful startup: the key,
the model identifier (with its default applied), and the raw optional
secondary key. -/
structure Config where
  groq_api_key : String
  model : String
  firecrawl_api_key : Option String
deriving Repr, DecidableEq

/-- Result of the module top level (lines 27-73): either the process
terminated (`fatal`, carrying the exit code and the stderr lines printed,
and structurally carrying no client and no request) or it proceeded
(`ok`, carrying the client parameters, the configuration, the stdout
banner, and the tool list). -/
inductive StartupResult where
  | fatal (exitCode : Nat) (errOutput : List String)
  | ok (clientApiKey : String) (clientBaseUrl : String) (cfg : Config)
       (stdout : List String) (tools : List Tool)
deriving Repr, DecidableEq

/-- The three stderr lines printed when `GROQ_API_KEY` is missing
(lines 33-35). -/
def missingKeyLines : List String :=
  [ "❌ Error: GROQ_API_KEY environment variable is required"
  , "   Get your API key from https://console.groq.com/keys"
  , "   Usage: GROQ_API_KEY=gsk_... python scripts/groq_mcp_demo.py" ]

/-- The stdout banner printed at lines 44-73 on a successful startup. -/
def bannerLines (model : String) (firecrawl_api_key : Option String) : List String :=
  [ "🚀 Groq MCP Demo - Python"
  , eqRule
  , "Model: " ++ model
  , "Groq API: Configured ✓"
  , "Huggingface MCP: Enabled ✓" ]
  ++ (if strTruthy firecrawl_api_key then
        ["Firecrawl MCP: Enabled ✓"]
      else
        ["Firecrawl MCP: Disabled (no API key)"])
  ++ [eqRule, ""]

/-- The module top level, lines 27-73: read the environment, exit 1 with
the usage message when `GROQ_API_KEY` is not truthy (before the client at
line 39 is ever constructed), otherwise build the client, print the
banner, and build the tool list. -/
def startup (env : Env) : StartupResult :=
  let GROQ_API_KEY := env.groq_api_key
  let DEFAULT_GROQ_MODEL := env.default_groq_model.getD "llama-3.3-70b-versatile"
  let FIRECRAWL_API_KEY := env.firecrawl_api_key
  if strTruthy GROQ_API_KEY then
    StartupResult.ok (GROQ_API_KEY.getD "") "https://api.groq.com/openai/v1"
      { groq_api_key := GROQ_API_KEY.getD ""
      , model := DEFAULT_GROQ_MODEL
      , firecrawl_api_key := FIRECRAWL_API_KEY }
      (bannerLines DEFAULT_GROQ_MODEL FIRECRAWL_API_KEY)
      (buildTools FIRECRAWL_API_KEY)
  else
    StartupResult.fatal 1 missingKeyLines

/-- A `tool_call.function` object: a tool name and a JSON-encoded
argument string. -/
structure FunctionCall where
  name : String
  arguments : String
deriving Repr, DecidableEq

/-- A tool-invocation record in a response message.  `function = none`
models an object without a `function` attribute (the
`hasattr(tool_call, 'function')` checks at lines 134 and 136). -/
structure ToolCall where
  function : Option FunctionCall
  type : String
deriving Repr, DecidableEq

/-- A response message: optional text content, an optional list of
tool-invocation records (`None` or a list), and the string produced by
`json.dumps(message.model_dump(), indent=2, default=str)` — the dump is
computed by the external SDK/json library, so it is carried as data. -/
structure Message where
  content : Option String
  tool_calls : Option (List ToolCall)
  dumpJson : String
deriving Repr, DecidableEq

/-- The `usage` object of a response. -/
structure Usage where
  total_tokens : Nat
deriving Repr, DecidableEq

/-- One choice of a response. -/
structure Choice where
  message : Message
deriving Repr, DecidableEq

/-- A chat-completion response object: choices and optional usage. -/
structure Response where
  choices : List Choice
  usage : Option Usage
deriving Repr, DecidableEq

/-- A Python exception as the routines observe it: its display string and
the value of its `status_code` attribute when it has one
(`none` models `hasattr(error, 'status_code') == False`). -/
structure PyError where
  msg : String
  status_code : Option Int
deriving Repr, DecidableEq

/-- Outcome of one `client.chat.completions.create(...)` call: the
response returned, or the exception it raised. -/
abbrev Outcome := Except PyError Response

/-- The request record a routine passes to
`client.chat.completions.create`: model, role/content message pairs,
optional tool list, and `max_tokens`. -/
structure Request where
  model : String
  messages : List (String × String)
  tools : Option (List Tool)
  max_tokens : Nat
deriving Repr, DecidableEq

/-- The module-level `tools` list as the routines see it. -/
def theTools (cfg : Config) : List Tool := buildTools cfg.firecrawl_api_key

/-- What one demo routine did: the requests it issued, the lines it
printed, and the exception that escaped it (`none` when it returned
normally). -/
structure RoutineResult where
  requests : List Request
  output : List Line
  raised : Option PyError
deriving Repr, DecidableEq

/-- `print(x)` of an optional string: Python prints `None` for `None`. -/
def pyShow : Option String → String
  | none => "None"
  | some s => s

/-- `response.usage.total_tokens if response.usage else 0`. -/
def usageTokens : Option Usage → Nat
  | some u => u.total_tokens
  | none => 0

/-- The exception raised by `lst[0]` on an empty list. -/
def listIndexError : PyError := { msg := "list index out of range", status_code := none }

/-- The stderr line `print(f"❌ Error: {error}", file=sys.stderr)`. -/
def errorLine (e : PyError) : Line := errOutL ("❌ Error: " ++ e.msg)

/-- A routine body: it either completes, returning the lines printed
inside the `try` block, or raises an exception part-way through, having
already printed some lines. -/
inductive BodyResult where
  | ok (lines : List Line)
  | raised (lines : List Line) (e : PyError)
deriving Repr, DecidableEq

/-- The shared `try`/`except Exception` shape of each routine: the header
lines, then the body; `except Exception` matches every exception the body
raises, printing the generic error line and the routine's status-code
hints, so nothing propagates (`raised := none` in both branches); a final
`print()` after the handler always emits a trailing blank line. -/
def runDemo (header : List Line) (requests : List Request)
    (body : BodyResult) (hints : PyError → List Line) : RoutineResult :=
  match body with
  | BodyResult.ok ls =>
      { requests := requests, output := header ++ ls ++ [outL ""], raised := none }
  | BodyResult.raised ls e =>
      { requests := requests
      , output := header ++ ls ++ (errorLine e :: hints e) ++ [outL ""]
      , raised := none }

/-! ### Demo 1: simple completion (lines 76-101) -/

/-- The request demo 1 issues (lines 82-91): no tools. -/
def demo1Request (cfg : Config) : Request :=
  { model := cfg.model
  , messages := [("user", "Write a 4-line rap verse about artificial intelligence.")]
  , tools := none
  , max_tokens := 150 }

/-- The `try` block of demo 1 (lines 81-96). -/
def demo1Body (o : Outcome) : BodyResult :=
  match o with
  | Except.error e => BodyResult.raised [] e
  | Except.ok r =>
      match r.choices with
      | [] => BodyResult.raised [outL "Response:"] listIndexError
      | c :: _ =>
          BodyResult.ok
            [ outL "Response:"
            , outL (pyShow c.message.content)
            , outL ""
            , outL ("✓ Completed in " ++ toString (usageTokens r.usage) ++ " tokens") ]

/-- Demo 1's `except` hints (lines 99-100): authentication hint for a 401
status code only. -/
def demo1Hints (e : PyError) : List Line :=
  if e.status_code = some 401 then [errOutL "   Check your GROQ_API_KEY"] else []

/-- `demo1_simple_completion` (lines 76-101). -/
def demo1_simple_completion (cfg : Config) (o : Outcome) : RoutineResult :=
  runDemo
    [outL "📝 Demo 1: Simple Chat Completion (No MCP)", outL dashRule]
    [demo1Request cfg]
    (demo1Body o)
    demo1Hints

/-! ### Demo 2: completion with MCP tools (lines 104-158) -/

/-- The request demo 2 issues (lines 110-120): the module tool list. -/
def demo2Request (cfg : Config) : Request :=
  { model := cfg.model
  , messages := [("user", "What are some popular open-source language models on Hugging Face? List 3 with brief descriptions.")]
  , tools := some (theTools cfg)
  , max_tokens := 500 }

/-- `message.tool_calls and len(message.tool_calls) > 0` (line 131). -/
def toolCallsTruthy : Option (List ToolCall) → Bool
  | none => false
  | some l => !l.isEmpty

/-- `tool_call.function.name if hasattr(tool_call, 'function') else
tool_call.type` (line 134). -/
def toolCallName (tc : ToolCall) : String :=
  match tc.function with
  | some f => f.name
  | none => tc.type

/-- `args_str.replace(chr(10), chr(10) + '     ')` (line 140): the
pattern is the single newline character, so the replacement rewrites each
newline of the pretty-printed dump into a newline followed by five
spaces, indenting the continuation lines. -/
def replaceNewlines (s : String) : String :=
  String.mk (s.data.flatMap (fun c => if c = '\n' then '\n' :: "     ".data else [c]))

/-- The lines printed for one tool-invocation record (lines 135-142).
`jp` is the external json library: `jp s = none` models `json.loads(s)`
raising `JSONDecodeError`, in which case the raw argument string is
printed; `jp s = some t` models the pretty-printed dump `t`, which is
printed with continuation lines indented. -/
def formatToolCall (jp : String → Option String) (idx : Nat) (tc : ToolCall) : List Line :=
  outL ("\n  " ++ toString idx ++ ". " ++ toolCallName tc) ::
    (match tc.function with
     | some f =>
         if f.arguments ≠ "" then
           match jp f.arguments with
           | some t => [outL ("     Arguments: " ++ replaceNewlines t)]
           | none => [outL ("     Arguments: " ++ f.arguments)]
         else []
     | none => [])

/-- The `enumerate(message.tool_calls, 1)` loop at lines 133-142. -/
def formatToolCalls (jp : String → Option String) : Nat → List ToolCall → List Line
  | _, [] => []
  | i, tc :: rest => formatToolCall jp i tc ++ formatToolCalls jp (i + 1) rest

/-- The `try` block of demo 2 (lines 109-149). -/
def demo2Body (jp : String → Option String) (o : Outcome) : BodyResult :=
  match o with
  | Except.error e => BodyResult.raised [] e
  | Except.ok r =>
      match r.choices with
      | [] => BodyResult.raised [] listIndexError
      | c :: _ =>
          let m := c.message
          BodyResult.ok
            ((if strTruthy m.content then
                [outL "Model Reasoning:", outL (pyShow m.content), outL ""]
              else [])
             ++ (if toolCallsTruthy m.tool_calls then
                   (outL "🔧 MCP Tool Calls:" ::
                      formatToolCalls jp 1 (m.tool_calls.getD [])) ++ [outL ""]
                 else [])
             ++ [ outL "Final Message:"
                , outL m.dumpJson
                , outL ""
                , outL ("✓ Completed in " ++ toString (usageTokens r.usage) ++ " tokens") ])

/-- Demo 2's `except` hints (lines 152-157): authentication hint for 401,
MCP dependency hints for 424. -/
def demo2Hints (e : PyError) : List Line :=
  if e.status_code = some 401 then
    [errOutL "   Check your GROQ_API_KEY"]
  else if e.status_code = some 424 then
    [ errOutL "   MCP server dependency failed"
    , errOutL "   Check that MCP servers are reachable" ]
  else []

/-- `demo2_mcp_completion` (lines 104-158). -/
def demo2_mcp_completion (jp : String → Option String) (cfg : Config) (o : Outcome) :
    RoutineResult :=
  runDemo
    [outL "🔧 Demo 2: Chat Completion with MCP Tools", outL dashRule]
    [demo2Request cfg]
    (demo2Body jp o)
    demo2Hints

/-! ### Demo 3: tool discovery (lines 161-185) -/

/-- The request demo 3 issues (lines 167-177): the module tool list. -/
def demo3Request (cfg : Config) : Request :=
  { model := cfg.model
  , messages := [("user", "What tools do you have access to? Please list them.")]
  , tools := some (theTools cfg)
  , max_tokens := 300 }

/-- The `try` block of demo 3 (lines 166-182). -/
def demo3Body (o : Outcome) : BodyResult :=
  match o with
  | Except.error e => BodyResult.raised [] e
  | Except.ok r =>
      match r.choices with
      | [] => BodyResult.raised [outL "Response:"] listIndexError
      | c :: _ =>
          BodyResult.ok
            [ outL "Response:"
            , outL (pyShow c.message.content)
            , outL ""
            , outL ("✓ Completed in " ++ toString (usageTokens r.usage) ++ " tokens") ]

/-- `demo3_discover_tools` (lines 161-185): its `except` clause prints
only the generic error line, with no status-code hints at all. -/
def demo3_discover_tools (cfg : Config) (o : Outcome) : RoutineResult :=
  runDemo
    [outL "🔍 Demo 3: Tool Discovery", outL dashRule]
    [demo3Request cfg]
    (demo3Body o)
    (fun _ => [])

/-! ### Demo 4: Firecrawl MCP (lines 188-226) -/

/-- The request demo 4 issues when not skipped (lines 200-210). -/
def demo4Request (cfg : Config) : Request :=
  { model := cfg.model
  , messages := [("user", "Can you scrape the latest news from a tech website and summarize the top story?")]
  , tools := some (theTools cfg)
  , max_tokens := 400 }

/-- The `try` block of demo 4 (lines 199-220): raw text content when
truthy, otherwise the full JSON dump of the message. -/
def demo4Body (o : Outcome) : BodyResult :=
  match o with
  | Except.error e => BodyResult.raised [] e
  | Except.ok r =>
      match r.choices with
      | [] => BodyResult.raised [] listIndexError
      | c :: _ =>
          BodyResult.ok
            [ outL "Response:"
            , outL (if strTruthy c.message.content then pyShow c.message.content
                    else c.message.dumpJson)
            , outL ""
            , outL ("✓ Completed in " ++ toString (usageTokens r.usage) ++ " tokens") ]

/-- Demo 4's `except` hints (lines 223-225): Firecrawl hints for 424
only. -/
def demo4Hints (e : PyError) : List Line :=
  if e.status_code = some 424 then
    [ errOutL "   Firecrawl MCP server failed"
    , errOutL "   Check your FIRECRAWL_API_KEY" ]
  else []

/-- `demo4_firecrawl_mcp` (lines 188-226): when `FIRECRAWL_API_KEY` is
not truthy it prints the skip notice and returns without issuing any
request; otherwise it runs its real body. -/
def demo4_firecrawl_mcp (cfg : Config) (o : Outcome) : RoutineResult :=
  if strTruthy cfg.firecrawl_api_key then
    runDemo
      [outL "🌐 Demo 4: Firecrawl MCP Web Scraping", outL dashRule]
      [demo4Request cfg]
      (demo4Body o)
      demo4Hints
  else
    { requests := []
    , output :=
        [ outL "⏭️  Demo 4: Skipped (Firecrawl not configured)"
        , outL "   Set FIRECRAWL_API_KEY to enable web scraping demo"
        , outL "" ]
    , raised := none }

/-! ### Entry point (lines 229-247) -/

/-- The fixed summary block printed on normal completion
(lines 237-244). -/
def summaryLines : List Line :=
  [ outL eqRule
  , outL "✅ All demos completed successfully!"
  , outL ""
  , outL "Next steps:"
  , outL "  - Set FIRECRAWL_API_KEY to enable web scraping"
  , outL "  - Try different models (llama-3.1-8b-instant, etc.)"
  , outL "  - Read docs/groq-mcp.md for more information"
  , outL eqRule ]

/-- The stderr line of the top-level handler (line 246). -/
def fatalLine (e : PyError) : Line := errOutL ("❌ Fatal error: " ++ e.msg)

/-- The body of `main` (lines 232-235): run the routines in order
1, 2, 3, 4, stopping at the first one whose exception escapes; returns
the output printed so far and that exception, if any. -/
def mainBody (jp : String → Option String) (cfg : Config) (o1 o2 o3 o4 : Outcome) :
    List Line × Option PyError :=
  let r1 := demo1_simple_completion cfg o1
  match r1.raised with
  | some e => (r1.output, some e)
  | none =>
    let r2 := demo2_mcp_completion jp cfg o2
    match r2.raised with
    | some e => (r1.output ++ r2.output, some e)
    | none =>
      let r3 := demo3_discover_tools cfg o3
      match r3.raised with
      | some e => (r1.output ++ r2.output ++ r3.output, some e)
      | none =>
        let r4 := demo4_firecrawl_mcp cfg o4
        match r4.raised with
        | some e => (r1.output ++ r2.output ++ r3.output ++ r4.output, some e)
        | none => (r1.output ++ r2.output ++ r3.output ++ r4.output, none)

/-- The top-level `try`/`except` of `main` (lines 231-247): on normal
completion print the summary block and exit 0 (implicitly, when the
script ends); on an escaped exception print the fatal-error line and
`sys.exit(1)`.  Returns the full output and the process exit code. -/
def topHandler : List Line × Option PyError → List Line × Nat
  | (ls, some e) => (ls ++ [fatalLine e], 1)
  | (ls, none) => (ls ++ summaryLines, 0)

/-- `main` (lines 229-247). -/
def main (jp : String → Option String) (cfg : Config) (o1 o2 o3 o4 : Outcome) :
    List Line × Nat :=
  topHandler (mainBody jp cfg o1 o2 o3 o4)

/-! ### Helper lemmas -/

theorem getLast?_append_single {α : Type} (l : List α) (a : α) :
    (l ++ [a]).getLast? = some a := by
  rw [List.getLast?_append_of_ne_nil l (by simp)]
  rfl

theorem runDemo_requests (header : List Line) (req : List Request) (b : BodyResult)
    (hints : PyError → List Line) : (runDemo header req b hints).requests = req := by
  cases b <;> rfl

theorem runDemo_raised (header : List Line) (req : List Request) (b : BodyResult)
    (hints : PyError → List Line) : (runDemo header req b hints).raised = none := by
  cases b <;> rfl

theorem runDemo_getLast (header : List Line) (req : List Request) (b : BodyResult)
    (hints : PyError → List Line) :
    (runDemo header req b hints).output.getLast? = some (outL "") := by
  cases b with
  | ok ls => exact getLast?_append_single _ _
  | raised ls e => exact getLast?_append_single _ _

theorem demo1_raised_none (cfg : Config) (o : Outcome) :
    (demo1_simple_completion cfg o).raised = none :=
  runDemo_raised _ _ _ _

theorem demo2_raised_none (jp : String → Option String) (cfg : Config) (o : Outcome) :
    (demo2_mcp_completion jp cfg o).raised = none :=
  runDemo_raised _ _ _ _

theorem demo3_raised_none (cfg : Config) (o : Outcome) :
    (demo3_discover_tools cfg o).raised = none :=
  runDemo_raised _ _ _ _

theorem demo4_raised_none (cfg : Config) (o : Outcome) :
    (demo4_firecrawl_mcp cfg o).raised = none := by
  cases hfc : strTruthy cfg.firecrawl_api_key <;>
    simp [demo4_firecrawl_mcp, hfc, runDemo_raised]

theorem mainBody_eq (jp : String → Option String) (cfg : Config) (o1 o2 o3 o4 : Outcome) :
    mainBody jp cfg o1 o2 o3 o4 =
      ((demo1_simple_completion cfg o1).output ++ (demo2_mcp_completion jp cfg o2).output ++
       (demo3_discover_tools cfg o3).output ++ (demo4_firecrawl_mcp cfg o4).output, none) := by
  unfold mainBody
  simp only [demo1_raised_none, demo2_raised_none, demo3_raised_none, demo4_raised_none]

theorem formatToolCalls_mem_of_mem (jp : String → Option String) (x : Line)
    (tc : ToolCall) (hx : ∀ i : Nat, x ∈ formatToolCall jp i tc) :
    ∀ (l : List ToolCall), tc ∈ l → ∀ i : Nat, x ∈ formatToolCalls jp i l := by
  intro l
  induction l with
  | nil => intro h; cases h
  | cons hd tl ih =>
      intro h i
      simp only [formatToolCalls]
      rcases List.mem_cons.mp h with h1 | h2
      · subst h1
        exact List.mem_append.mpr (Or.inl (hx i))
      · exact List.mem_append.mpr (Or.inr (ih h2 (i + 1)))

/-! ### Claims -/

/-- C1: if the GROQ_API_KEY environment value is absent (not truthy) at
startup, the process writes the three-line usage/help message to the
error stream and terminates with exit code 1 — the `fatal` result carries
no client and no tool list, so no client is constructed and no network
call can be issued; and this is the only fatal-at-startup condition: with
a truthy key, startup always succeeds. -/
theorem C1_missing_key_fatal (env : Env) :
    (strTruthy env.groq_api_key = false →
        startup env = StartupResult.fatal 1 missingKeyLines) ∧
    (strTruthy env.groq_api_key = true →
        startup env =
          StartupResult.ok (env.groq_api_key.getD "") "https://api.groq.com/openai/v1"
            { groq_api_key := env.groq_api_key.getD ""
            , model := env.default_groq_model.getD "llama-3.3-70b-versatile"
            , firecrawl_api_key := env.firecrawl_api_key }
            (bannerLines (env.default_groq_model.getD "llama-3.3-70b-versatile")
              env.firecrawl_api_key)
            (buildTools env.firecrawl_api_key)) := by
  constructor <;> intro h <;> simp [startup, h]

/-- Witness for C1 at concrete environments: unset key is fatal, a set
key is not. -/
theorem C1_missing_key_fatal_witness :
    startup { groq_api_key := none, default_groq_model := none, firecrawl_api_key := none } =
      StartupResult.fatal 1 missingKeyLines ∧
    startup { groq_api_key := some "gsk_x", default_groq_model := none
            , firecrawl_api_key := none } =
      StartupResult.ok "gsk_x" "https://api.groq.com/openai/v1"
        { groq_api_key := "gsk_x", model := "llama-3.3-70b-versatile"
        , firecrawl_api_key := none }
        (bannerLines "llama-3.3-70b-versatile" none) (buildTools none) :=
  ⟨(C1_missing_key_fatal _).1 (by decide),
   (C1_missing_key_fatal
     { groq_api_key := some "gsk_x", default_groq_model := none
     , firecrawl_api_key := none }).2 (by decide)⟩

/-- C2: the tool list is a function of FIRECRAWL_API_KEY — one descriptor
(Huggingface, no auth header) when it is not truthy, exactly two with the
second carrying `Authorization: Bearer <key>` when it is set and
non-empty — and each of the tool-augmented routines 2, 3 and 4 passes
exactly this list, unchanged, in its single request. -/
theorem C2_tool_list (fc : Option String) (jp : String → Option String)
    (cfg : Config) (o : Outcome) :
    (strTruthy fc = false → buildTools fc = [hfTool] ∧ hfTool.headers = none) ∧
    (∀ s : String, fc = some s → s ≠ "" →
        buildTools fc = [hfTool, fcTool s] ∧
        (fcTool s).headers = some [("Authorization", "Bearer " ++ s)]) ∧
    ((demo2_mcp_completion jp cfg o).requests.map Request.tools = [some (theTools cfg)] ∧
     (demo3_discover_tools cfg o).requests.map Request.tools = [some (theTools cfg)] ∧
     (strTruthy cfg.firecrawl_api_key = true →
        (demo4_firecrawl_mcp cfg o).requests.map Request.tools = [some (theTools cfg)])) := by
  refine ⟨fun h => ⟨by simp [buildTools, h], rfl⟩, fun s hs hne => ?_, ?_, ?_, fun h => ?_⟩
  · subst hs
    constructor
    · simp [buildTools, strTruthy, hne]
    · rfl
  · simp [demo2_mcp_completion, runDemo_requests, demo2Request]
  · simp [demo3_discover_tools, runDemo_requests, demo3Request]
  · simp [demo4_firecrawl_mcp, h, runDemo_requests, demo4Request]

/-- Witness for C2 at concrete inputs: both shapes of the tool list, and
the request of routine 2 carrying it. -/
theorem C2_tool_list_witness :
    (buildTools none = [hfTool] ∧ hfTool.headers = none) ∧
    (buildTools (some "fck") = [hfTool, fcTool "fck"] ∧
      (fcTool "fck").headers = some [("Authorization", "Bearer fck")]) ∧
    (demo2_mcp_completion (fun _ => none)
        { groq_api_key := "g", model := "m", firecrawl_api_key := some "fck" }
        (Except.error { msg := "boom", status_code := none })).requests.map Request.tools =
      [some (theTools { groq_api_key := "g", model := "m", firecrawl_api_key := some "fck" })] :=
  ⟨(C2_tool_list none (fun _ => none)
      { groq_api_key := "g", model := "m", firecrawl_api_key := none }
      (Except.error { msg := "boom", status_code := none })).1 (by decide),
   (C2_tool_list (some "fck") (fun _ => none)
      { groq_api_key := "g", model := "m", firecrawl_api_key := some "fck" }
      (Except.error { msg := "boom", status_code := none })).2.1 "fck" rfl (by decide),
   (C2_tool_list (some "fck") (fun _ => none)
      { groq_api_key := "g", model := "m", firecrawl_api_key := some "fck" }
      (Except.error { msg := "boom", status_code := none })).2.2.1⟩

/-- C7: routine 1, given a response whose message text is "hello" (with
any tool calls and any usage), prints exactly the lines header, rule,
"Response:", "hello", a blank, the token line, and the trailing blank;
the reported token count is the usage total when usage is present and 0
when it is absent. -/
theorem C7_demo1_hello (cfg : Config) (u : Option Usage)
    (tcs : Option (List ToolCall)) (d : String) :
    (demo1_simple_completion cfg (Except.ok
        { choices := [{ message := { content := some "hello", tool_calls := tcs
                                   , dumpJson := d } }]
        , usage := u })).output =
      [ outL "📝 Demo 1: Simple Chat Completion (No MCP)", outL dashRule
      , outL "Response:", outL "hello", outL ""
      , outL ("✓ Completed in " ++ toString (usageTokens u) ++ " tokens"), outL "" ] ∧
    (∀ us : Usage, u = some us → usageTokens u = us.total_tokens) ∧
    (u = none → usageTokens u = 0) := by
  refine ⟨?_, fun us h => by subst h; rfl, fun h => by subst h; rfl⟩
  simp [demo1_simple_completion, runDemo, demo1Body, pyShow]

/-- Witness for C7 at a concrete response with usage 42 and with usage
absent. -/
theorem C7_demo1_hello_witness :
    (demo1_simple_completion { groq_api_key := "g", model := "m", firecrawl_api_key := none }
        (Except.ok
          { choices := [{ message := { content := some "hello", tool_calls := some []
                                     , dumpJson := "\x7b\x7d" } }]
          , usage := some { total_tokens := 42 } })).output =
      [ outL "📝 Demo 1: Simple Chat Completion (No MCP)", outL dashRule
      , outL "Response:", outL "hello", outL ""
      , outL "✓ Completed in 42 tokens", outL "" ] ∧
    usageTokens (some { total_tokens := 42 }) = 42 ∧
    (demo1_simple_completion { groq_api_key := "g", model := "m", firecrawl_api_key := none }
        (Except.ok
          { choices := [{ message := { content := some "hello", tool_calls := some []
                                     , dumpJson := "\x7b\x7d" } }]
          , usage := none })).output =
      [ outL "📝 Demo 1: Simple Chat Completion (No MCP)", outL dashRule
      , outL "Response:", outL "hello", outL ""
      , outL "✓ Completed in 0 tokens", outL "" ] :=
  ⟨(C7_demo1_hello _ (some { total_tokens := 42 }) (some []) "\x7b\x7d").1,
   (C7_demo1_hello { groq_api_key := "g", model := "m", firecrawl_api_key := none }
      (some { total_tokens := 42 }) (some []) "\x7b\x7d").2.1 { total_tokens := 42 } rfl,
   (C7_demo1_hello _ none (some []) "\x7b\x7d").1⟩

/-- C10: a variable set to the empty string behaves exactly like an
absent one at all three decision points — an empty GROQ_API_KEY yields
the identical fatal exit-1 startup, an empty FIRECRAWL_API_KEY yields the
identical one-descriptor tool list, and routine 4 takes its skip branch
(identical result, no request) — because all three checks test
truthiness. -/
theorem C10_empty_string_env (m fc : Option String) (g mo : String) (o : Outcome) :
    (startup { groq_api_key := some "", default_groq_model := m, firecrawl_api_key := fc } =
       startup { groq_api_key := none, default_groq_model := m, firecrawl_api_key := fc } ∧
     startup { groq_api_key := some "", default_groq_model := m, firecrawl_api_key := fc } =
       StartupResult.fatal 1 missingKeyLines) ∧
    (buildTools (some "") = buildTools none ∧ buildTools (some "") = [hfTool]) ∧
    (demo4_firecrawl_mcp { groq_api_key := g, model := mo, firecrawl_api_key := some "" } o =
       demo4_firecrawl_mcp { groq_api_key := g, model := mo, firecrawl_api_key := none } o ∧
     (demo4_firecrawl_mcp { groq_api_key := g, model := mo
                          , firecrawl_api_key := some "" } o).requests = []) :=
  ⟨⟨rfl, rfl⟩, ⟨rfl, rfl⟩, ⟨rfl, rfl⟩⟩

/-- C3: every exception raised by the completion call inside any of the
four routines is caught locally (no routine ever lets one escape:
`raised = none` for every outcome), is reported via the error-stream
generic error line, and therefore `main`'s body never stops early —
its escaped-exception component is `none` for all outcomes, so all
subsequent routines execute. -/
theorem C3_exceptions_absorbed (jp : String → Option String) (cfg : Config)
    (o : Outcome) (e : PyError) (o1 o2 o3 o4 : Outcome) :
    ((demo1_simple_completion cfg o).raised = none ∧
     (demo2_mcp_completion jp cfg o).raised = none ∧
     (demo3_discover_tools cfg o).raised = none ∧
     (demo4_firecrawl_mcp cfg o).raised = none) ∧
    (o = Except.error e →
       errorLine e ∈ (demo1_simple_completion cfg o).output ∧
       errorLine e ∈ (demo2_mcp_completion jp cfg o).output ∧
       errorLine e ∈ (demo3_discover_tools cfg o).output ∧
       (strTruthy cfg.firecrawl_api_key = true →
          errorLine e ∈ (demo4_firecrawl_mcp cfg o).output)) ∧
    (mainBody jp cfg o1 o2 o3 o4).2 = none := by
  refine ⟨⟨demo1_raised_none cfg o, demo2_raised_none jp cfg o, demo3_raised_none cfg o,
           demo4_raised_none cfg o⟩, fun ho => ?_, by rw [mainBody_eq]⟩
  subst ho
  refine ⟨?_, ?_, ?_, fun hfc => ?_⟩
  · simp [demo1_simple_completion, runDemo, demo1Body]
  · simp [demo2_mcp_completion, runDemo, demo2Body]
  · simp [demo3_discover_tools, runDemo, demo3Body]
  · simp [demo4_firecrawl_mcp, hfc, runDemo, demo4Body]

/-- Witness for C3 at a concrete 500-style error in each routine, with
the secondary key configured. -/
theorem C3_exceptions_absorbed_witness :
    (demo1_simple_completion { groq_api_key := "g", model := "m", firecrawl_api_key := some "f" }
        (Except.error { msg := "boom", status_code := none })).raised = none ∧
    errorLine { msg := "boom", status_code := none } ∈
      (demo3_discover_tools { groq_api_key := "g", model := "m", firecrawl_api_key := some "f" }
        (Except.error { msg := "boom", status_code := none })).output ∧
    errorLine { msg := "boom", status_code := none } ∈
      (demo4_firecrawl_mcp { groq_api_key := "g", model := "m", firecrawl_api_key := some "f" }
        (Except.error { msg := "boom", status_code := none })).output :=
  ⟨(C3_exceptions_absorbed (fun _ => none)
      { groq_api_key := "g", model := "m", firecrawl_api_key := some "f" }
      (Except.error { msg := "boom", status_code := none })
      { msg := "boom", status_code := none }
      (Except.error { msg := "boom", status_code := none })
      (Except.error { msg := "boom", status_code := none })
      (Except.error { msg := "boom", status_code := none })
      (Except.error { msg := "boom", status_code := none })).1.1,
   ((C3_exceptions_absorbed (fun _ => none)
      { groq_api_key := "g", model := "m", firecrawl_api_key := some "f" }
      (Except.error { msg := "boom", status_code := none })
      { msg := "boom", status_code := none }
      (Except.error { msg := "boom", status_code := none })
      (Except.error { msg := "boom", status_code := none })
      (Except.error { msg := "boom", status_code := none })
      (Except.error { msg := "boom", status_code := none })).2.1 rfl).2.2.1,
   ((C3_exceptions_absorbed (fun _ => none)
      { groq_api_key := "g", model := "m", firecrawl_api_key := some "f" }
      (Except.error { msg := "boom", status_code := none })
      { msg := "boom", status_code := none }
      (Except.error { msg := "boom", status_code := none })
      (Except.error { msg := "boom", status_code := none })
      (Except.error { msg := "boom", status_code := none })
      (Except.error { msg := "boom", status_code := none })).2.1 rfl).2.2.2 (by decide)⟩

/-- C5: when FIRECRAWL_API_KEY is not truthy, routine 4 returns exactly
the skip result — the two-line skip notice plus trailing blank, with no
request issued; when it is truthy, routine 4 issues exactly its one
request and, on a successful response, prints the raw text content when
it is truthy and the full JSON dump of the message otherwise. -/
theorem C5_demo4_skip_or_run (cfg : Config) (o : Outcome) :
    (strTruthy cfg.firecrawl_api_key = false →
       demo4_firecrawl_mcp cfg o =
         { requests := []
         , output := [ outL "⏭️  Demo 4: Skipped (Firecrawl not configured)"
                     , outL "   Set FIRECRAWL_API_KEY to enable web scraping demo"
                     , outL "" ]
         , raised := none }) ∧
    (strTruthy cfg.firecrawl_api_key = true →
       (demo4_firecrawl_mcp cfg o).requests = [demo4Request cfg] ∧
       ∀ (r : Response) (c : Choice) (rest : List Choice),
         o = Except.ok r → r.choices = c :: rest →
         (demo4_firecrawl_mcp cfg o).output =
           [ outL "🌐 Demo 4: Firecrawl MCP Web Scraping", outL dashRule
           , outL "Response:"
           , outL (if strTruthy c.message.content then pyShow c.message.content
                   else c.message.dumpJson)
           , outL ""
           , outL ("✓ Completed in " ++ toString (usageTokens r.usage) ++ " tokens")
           , outL "" ]) := by
  refine ⟨fun h => by simp [demo4_firecrawl_mcp, h], fun h => ⟨?_, ?_⟩⟩
  · simp [demo4_firecrawl_mcp, h, runDemo_requests]
  · intro r c rest ho hc
    subst ho
    simp [demo4_firecrawl_mcp, h, runDemo, demo4Body, hc]

/-- Witness for C5: the skip branch with the key unset, and the run
branch (JSON-dump case, empty content) with it set. -/
theorem C5_demo4_skip_or_run_witness :
    demo4_firecrawl_mcp { groq_api_key := "g", model := "m", firecrawl_api_key := none }
        (Except.error { msg := "boom", status_code := none }) =
      { requests := []
      , output := [ outL "⏭️  Demo 4: Skipped (Firecrawl not configured)"
                  , outL "   Set FIRECRAWL_API_KEY to enable web scraping demo"
                  , outL "" ]
      , raised := none } ∧
    (demo4_firecrawl_mcp { groq_api_key := "g", model := "m", firecrawl_api_key := some "f" }
        (Except.ok
          { choices := [{ message := { content := none, tool_calls := none
                                     , dumpJson := "\x7b\"role\": \"assistant\"\x7d" } }]
          , usage := none })).output =
      [ outL "🌐 Demo 4: Firecrawl MCP Web Scraping", outL dashRule
      , outL "Response:"
      , outL "\x7b\"role\": \"assistant\"\x7d"
      , outL ""
      , outL "✓ Completed in 0 tokens"
      , outL "" ] :=
  ⟨(C5_demo4_skip_or_run { groq_api_key := "g", model := "m", firecrawl_api_key := none }
      (Except.error { msg := "boom", status_code := none })).1 rfl,
   ((C5_demo4_skip_or_run { groq_api_key := "g", model := "m", firecrawl_api_key := some "f" }
      (Except.ok
        { choices := [{ message := { content := none, tool_calls := none
                                   , dumpJson := "\x7b\"role\": \"assistant\"\x7d" } }]
        , usage := none })).2 (by decide)).2
     { choices := [{ message := { content := none, tool_calls := none
                                , dumpJson := "\x7b\"role\": \"assistant\"\x7d" } }]
     , usage := none }
     { message := { content := none, tool_calls := none
                  , dumpJson := "\x7b\"role\": \"assistant\"\x7d" } }
     [] rfl rfl⟩

/-- C8: `main` invokes the routines strictly in order 1, 2, 3, 4 inside
one top-level handler — for all outcomes its output is the concatenation
of the four routines' outputs in that order followed by the fixed summary
block and the exit code is 0 — and any exception reaching the top-level
handler is reported as the fatal-error line with exit code 1. -/
theorem C8_main_order_and_exit (jp : String → Option String) (cfg : Config)
    (o1 o2 o3 o4 : Outcome) :
    main jp cfg o1 o2 o3 o4 =
      ((demo1_simple_completion cfg o1).output ++ (demo2_mcp_completion jp cfg o2).output ++
       (demo3_discover_tools cfg o3).output ++ (demo4_firecrawl_mcp cfg o4).output ++
       summaryLines, 0) ∧
    (∀ (ls : List Line) (e : PyError), topHandler (ls, some e) = (ls ++ [fatalLine e], 1)) := by
  refine ⟨?_, fun ls e => rfl⟩
  unfold main
  rw [mainBody_eq]
  rfl

/-- C9: each of the four routines ends its output with a trailing blank
line, for every outcome — success, failure, or (routine 4) skip. -/
theorem C9_trailing_blank (jp : String → Option String) (cfg : Config) (o : Outcome) :
    (demo1_simple_completion cfg o).output.getLast? = some (outL "") ∧
    (demo2_mcp_completion jp cfg o).output.getLast? = some (outL "") ∧
    (demo3_discover_tools cfg o).output.getLast? = some (outL "") ∧
    (demo4_firecrawl_mcp cfg o).output.getLast? = some (outL "") := by
  refine ⟨runDemo_getLast _ _ _ _, runDemo_getLast _ _ _ _, runDemo_getLast _ _ _ _, ?_⟩
  cases hfc : strTruthy cfg.firecrawl_api_key
  · simp [demo4_firecrawl_mcp, hfc]
  · simp [demo4_firecrawl_mcp, hfc, runDemo_getLast]

/-- C4 counterexample: a caught 401 error in routine 3 is printed with no
authentication hint — its whole output is the header, the rule, the
generic error line and the trailing blank — refuting the claim that in
every routine a 401 failure is printed with an authentication hint. -/
theorem C4_counterexample_demo3_401 :
    (demo3_discover_tools { groq_api_key := "g", model := "m", firecrawl_api_key := none }
        (Except.error { msg := "Error code: 401", status_code := some 401 })).output =
      [ outL "🔍 Demo 3: Tool Discovery", outL dashRule
      , errOutL "❌ Error: Error code: 401", outL "" ] ∧
    errOutL "   Check your GROQ_API_KEY" ∉
      (demo3_discover_tools { groq_api_key := "g", model := "m", firecrawl_api_key := none }
        (Except.error { msg := "Error code: 401", status_code := some 401 })).output := by
  constructor
  · rfl
  · decide

/-- C4 (amended): status-code hints are routine-specific, not uniform:
routine 1 prints the authentication hint exactly when the caught error's
status code is 401 (and nothing for 424); routine 2 prints the
authentication hint for 401 and the two MCP-dependency hints for 424;
routine 3 never prints any status-code hint; routine 4 prints the two
Firecrawl hints exactly for 424 (and nothing for 401); in every other
case only the generic error line is printed. -/
theorem C4_amended_routine_hints (jp : String → Option String) (cfg : Config) (e : PyError) :
    ((demo1_simple_completion cfg (Except.error e)).output =
       [outL "📝 Demo 1: Simple Chat Completion (No MCP)", outL dashRule, errorLine e] ++
       (if e.status_code = some 401 then [errOutL "   Check your GROQ_API_KEY"] else []) ++
       [outL ""]) ∧
    ((demo2_mcp_completion jp cfg (Except.error e)).output =
       [outL "🔧 Demo 2: Chat Completion with MCP Tools", outL dashRule, errorLine e] ++
       (if e.status_code = some 401 then [errOutL "   Check your GROQ_API_KEY"]
        else if e.status_code = some 424 then
          [ errOutL "   MCP server dependency failed"
          , errOutL "   Check that MCP servers are reachable" ]
        else []) ++
       [outL ""]) ∧
    ((demo3_discover_tools cfg (Except.error e)).output =
       [outL "🔍 Demo 3: Tool Discovery", outL dashRule, errorLine e, outL ""]) ∧
    (strTruthy cfg.firecrawl_api_key = true →
       (demo4_firecrawl_mcp cfg (Except.error e)).output =
         [outL "🌐 Demo 4: Firecrawl MCP Web Scraping", outL dashRule, errorLine e] ++
         (if e.status_code = some 424 then
            [ errOutL "   Firecrawl MCP server failed"
            , errOutL "   Check your FIRECRAWL_API_KEY" ]
          else []) ++
         [outL ""]) := by
  refine ⟨?_, ?_, ?_, fun hfc => ?_⟩
  · by_cases h1 : e.status_code = some 401 <;>
      simp [demo1_simple_completion, runDemo, demo1Body, demo1Hints, h1]
  · by_cases h1 : e.status_code = some 401
    · simp [demo2_mcp_completion, runDemo, demo2Body, demo2Hints, h1]
    · by_cases h2 : e.status_code = some 424 <;>
        simp [demo2_mcp_completion, runDemo, demo2Body, demo2Hints, h1, h2]
  · simp [demo3_discover_tools, runDemo, demo3Body]
  · by_cases h2 : e.status_code = some 424 <;>
      simp [demo4_firecrawl_mcp, hfc, runDemo, demo4Body, demo4Hints, h2]

/-- Witness for the amended C4: routine 1 does print the authentication
hint on a 401, and routine 4 with the key configured does print the
Firecrawl hints on a 424. -/
theorem C4_amended_routine_hints_witness :
    (demo1_simple_completion { groq_api_key := "g", model := "m", firecrawl_api_key := some "f" }
        (Except.error { msg := "Error code: 401", status_code := some 401 })).output =
      [ outL "📝 Demo 1: Simple Chat Completion (No MCP)", outL dashRule
      , errOutL "❌ Error: Error code: 401", errOutL "   Check your GROQ_API_KEY", outL "" ] ∧
    (demo4_firecrawl_mcp { groq_api_key := "g", model := "m", firecrawl_api_key := some "f" }
        (Except.error { msg := "Error code: 424", status_code := some 424 })).output =
      [ outL "🌐 Demo 4: Firecrawl MCP Web Scraping", outL dashRule
      , errOutL "❌ Error: Error code: 424"
      , errOutL "   Firecrawl MCP server failed", errOutL "   Check your FIRECRAWL_API_KEY"
      , outL "" ] :=
  ⟨(C4_amended_routine_hints (fun _ => none)
      { groq_api_key := "g", model := "m", firecrawl_api_key := some "f" }
      { msg := "Error code: 401", status_code := some 401 }).1,
   (C4_amended_routine_hints (fun _ => none)
      { groq_api_key := "g", model := "m", firecrawl_api_key := some "f" }
      { msg := "Error code: 424", status_code := some 424 }).2.2.2 (by decide)⟩

/-- C6: in routine 2, a tool-invocation record whose argument string is
not valid JSON (the json library rejects it: `jp` returns `none`) is
displayed by falling back to the raw argument string, while a valid one
is pretty-printed with continuation indentation; the formatting is a
total function, and the routine returns normally (`raised = none`), so
no exception escapes — shown both at the single-record level and inside
a full routine-2 run whose message carries the record. -/
theorem C6_args_json_fallback (jp : String → Option String) (cfg : Config)
    (idx : Nat) (tc : ToolCall) (f : FunctionCall)
    (hf : tc.function = some f) (ha : f.arguments ≠ "") :
    (jp f.arguments = none →
       formatToolCall jp idx tc =
         [ outL ("\n  " ++ toString idx ++ ". " ++ f.name)
         , outL ("     Arguments: " ++ f.arguments) ]) ∧
    (∀ t : String, jp f.arguments = some t →
       formatToolCall jp idx tc =
         [ outL ("\n  " ++ toString idx ++ ". " ++ f.name)
         , outL ("     Arguments: " ++ replaceNewlines t) ]) ∧
    (∀ (l : List ToolCall) (m : Message) (rest : List Choice) (u : Option Usage),
       tc ∈ l → m.tool_calls = some l → jp f.arguments = none →
       outL ("     Arguments: " ++ f.arguments) ∈
         (demo2_mcp_completion jp cfg
           (Except.ok { choices := { message := m } :: rest, usage := u })).output ∧
       (demo2_mcp_completion jp cfg
           (Except.ok { choices := { message := m } :: rest, usage := u })).raised = none) := by
  refine ⟨fun hjp => ?_, fun t hjp => ?_, fun l m rest u htc hm hjp => ⟨?_, runDemo_raised _ _ _ _⟩⟩
  · simp [formatToolCall, toolCallName, hf, ha, hjp]
  · simp [formatToolCall, toolCallName, hf, ha, hjp]
  · have hx : ∀ i : Nat, outL ("     Arguments: " ++ f.arguments) ∈ formatToolCall jp i tc := by
      intro i
      simp [formatToolCall, toolCallName, hf, ha, hjp]
    have hmem := formatToolCalls_mem_of_mem jp _ tc hx l htc 1
    have hne : l ≠ [] := List.ne_nil_of_mem htc
    have htruthy : toolCallsTruthy (some l) = true := by
      simpa [toolCallsTruthy] using hne
    by_cases hcont : strTruthy m.content = true <;>
      simp [demo2_mcp_completion, runDemo, demo2Body, hm, htruthy, hcont, hmem]

/-- Witness for C6: a record whose arguments do not parse falls back to
the raw string, one whose arguments parse is pretty-printed, and the
fallback line appears in a full routine-2 run. -/
theorem C6_args_json_fallback_witness :
    formatToolCall (fun _ => none) 1
        { function := some { name := "scrape", arguments := "not json" }, type := "function" } =
      [outL "\n  1. scrape", outL "     Arguments: not json"] ∧
    formatToolCall (fun s => if s = "\x7b\"a\": 1\x7d" then some "\x7b\n  \"a\": 1\n\x7d" else none) 2
        { function := some { name := "scrape", arguments := "\x7b\"a\": 1\x7d" }, type := "function" } =
      [outL "\n  2. scrape", outL "     Arguments: \x7b\n       \"a\": 1\n     \x7d"] ∧
    outL "     Arguments: not json" ∈
      (demo2_mcp_completion (fun _ => none)
        { groq_api_key := "g", model := "m", firecrawl_api_key := none }
        (Except.ok
          { choices :=
              [{ message :=
                   { content := none
                   , tool_calls := some
                       [{ function := some { name := "scrape", arguments := "not json" }
                        , type := "function" }]
                   , dumpJson := "\x7b\x7d" } }]
          , usage := none })).output :=
  ⟨(C6_args_json_fallback (fun _ => none)
      { groq_api_key := "g", model := "m", firecrawl_api_key := none } 1
      { function := some { name := "scrape", arguments := "not json" }, type := "function" }
      { name := "scrape", arguments := "not json" } rfl (by decide)).1 rfl,
   (C6_args_json_fallback (fun s => if s = "\x7b\"a\": 1\x7d" then some "\x7b\n  \"a\": 1\n\x7d" else none)
      { groq_api_key := "g", model := "m", firecrawl_api_key := none } 2
      { function := some { name := "scrape", arguments := "\x7b\"a\": 1\x7d" }, type := "function" }
      { name := "scrape", arguments := "\x7b\"a\": 1\x7d" } rfl (by decide)).2.1
      "\x7b\n  \"a\": 1\n\x7d" (by decide),
   ((C6_args_json_fallback (fun _ => none)
      { groq_api_key := "g", model := "m", firecrawl_api_key := none } 1
      { function := some { name := "scrape", arguments := "not json" }, type := "function" }
      { name := "scrape", arguments := "not json" } rfl (by decide)).2.2
      [{ function := some { name := "scrape", arguments := "not json" }, type := "function" }]
      { content := none
      , tool_calls := some
          [{ function := some { name := "scrape", arguments := "not json" }
           , type := "function" }]
      , dumpJson := "\x7b\x7d" }
      [] none (by decide) rfl rfl).1⟩

end GroqMcpDemo
